import Mathlib

/-!
Verification of the KTP validation and confidence-scoring core
(`app/services/ktp_validator.py` and the verdict update in
`app/api/endpoints.py`) against its natural-language specification.

The Python code is shallowly embedded: strings are `String`, Python
`int(...)` is the partial parser `pyInt?` (a `ValueError` is `none`),
`datetime(y, m, d)` construction is the validity test `datetimeValid`
(a `ValueError` is `false`), and `datetime.now()` is an injected
`PyDateTime` value so that no wall clock is involved.  Every
`try/except` of the source appears as the corresponding `match` on
`Option`.  Scores are exact rationals `ℚ`; the Python float literals
0.1 and 0.3 are the corresponding exact decimal rationals.
-/

namespace KTPDetection

/-! ## Python string primitives -/

/-- Value of a list of ASCII digit characters, most significant first
(the behaviour of Python `int` on an all-digit string). -/
def digitsVal (l : List Char) : Nat :=
  l.foldl (fun a c => a * 10 + (c.toNat - 48)) 0

/-- Python whitespace characters stripped by `str.strip()` and ignored
by `int(...)` at both ends (ASCII subset). -/
def pyWhitespace (c : Char) : Bool :=
  c == ' ' || c == '\t' || c == '\n' || c == '\r' || c == '\x0b' || c == '\x0c'

/-- Model of `str.strip()` on the character list. -/
def stripList (l : List Char) : List Char :=
  ((l.dropWhile pyWhitespace).reverse.dropWhile pyWhitespace).reverse

/-- Python `str.strip()`. -/
def pyStrip (s : String) : String := String.mk (stripList s.toList)

/-- Python `str.upper()` (ASCII letters; the source data is ASCII). -/
def pyUpper (s : String) : String := String.mk (s.toList.map Char.toUpper)

/-- Python slice `s[a:b]` for `a ≤ b` (total, clamps at the ends). -/
def pySliceStr (s : String) (a b : Nat) : String :=
  String.mk ((s.toList.drop a).take (b - a))

/-- Nonempty all-digit run, the body accepted by Python `int`. -/
def parseUnsigned? (l : List Char) : Option Nat :=
  if l = [] then none
  else if l.all Char.isDigit then some (digitsVal l) else none

/-- Python `int(s)`: strip whitespace, optional sign, digits; `none`
models the `ValueError` raised otherwise. -/
def pyInt? (s : String) : Option Int :=
  let l := stripList s.toList
  if l.head? = some '-' then (parseUnsigned? l.tail).map (fun n => -(n : Int))
  else if l.head? = some '+' then (parseUnsigned? l.tail).map (fun n => (n : Int))
  else (parseUnsigned? l).map (fun n => (n : Int))

/-- Python `str.split(sep)` for a one-character separator, keeping
empty pieces exactly as Python does. -/
def splitChar (sep : Char) : List Char → List (List Char)
  | [] => [[]]
  | c :: rest =>
    if c == sep then [] :: splitChar sep rest
    else
      match splitChar sep rest with
      | [] => [[c]]
      | h :: t => (c :: h) :: t

/-- Split on the dash character, as `birth_date.split` does in the source. -/
def pySplitDash (s : String) : List String :=
  (splitChar '-' s.toList).map String.mk

/-- Python substring test `needle in hay`. -/
def strIn (needle hay : String) : Bool :=
  decide (needle.toList <:+: hay.toList)

/-- Model of `re.match` with pattern Caret-digit16-Dollar.  Dollar also matches
just before one trailing newline, so a 16-digit string followed by a
single newline is accepted as well, exactly as in Python `re`. -/
def reMatchDigits16 (s : String) : Bool :=
  let l := s.toList
  (l.length == 16 && l.all Char.isDigit) ||
    (l.length == 17 && l.getLast? == some '\n' && (l.take 16).all Char.isDigit)

/-- The plain reading of the shape rule: exactly 16 ASCII digits. -/
def isDigit16 (s : String) : Bool :=
  s.toList.length == 16 && s.toList.all Char.isDigit

/-! ## Dates (`datetime` model) -/

/-- Injected clock: the date part of `datetime.now()`.  A constructed
`datetime(y, m, d)` is at midnight, so `constructed > now` is the
strict lexicographic comparison of the date triples. -/
structure PyDateTime where
  year : Int
  month : Int
  day : Int
deriving DecidableEq

def isLeapYear (y : Int) : Bool :=
  (y % 4 == 0 && y % 100 != 0) || y % 400 == 0

def daysInMonth (y m : Int) : Int :=
  if m == 2 then (if isLeapYear y then 29 else 28)
  else if m == 4 || m == 6 || m == 9 || m == 11 then 30
  else 31

/-- Uncaught Python exception kinds the embedding tracks.  Every
`ValueError` and `IndexError` the source can raise is caught by one of
its handlers, so the only escaping condition is the `OverflowError`
from a `datetime` component beyond the C `int` bound. -/
inductive PyExn
  | overflowError
deriving DecidableEq

/-- CPython converts each `datetime` component with the C `int`
converter before any range check, raising `OverflowError` — not
`ValueError` — when a component falls outside [-2^31, 2^31 - 1].
Neither `except ValueError` nor `except (ValueError, IndexError)` in
the source catches it. -/
def datetimeOverflows (y m d : Int) : Bool :=
  decide (2147483647 < y) || decide (y < -2147483648) ||
    decide (2147483647 < m) || decide (m < -2147483648) ||
    decide (2147483647 < d) || decide (d < -2147483648)

/-- Would `datetime(y, m, d)` construct without raising a
`ValueError`?  This models only the range checks, which apply once all
components fit in a C `int`; the separate `OverflowError` for larger
components is `datetimeOverflows`.  At the `_validate_birth_date_in_nik`
site the components are bounded (2-digit parses and a pivot year), so
no overflow is possible there and this test alone is faithful. -/
def datetimeValid (y m d : Int) : Bool :=
  decide (1 ≤ y) && decide (y ≤ 9999) &&
    decide (1 ≤ m) && decide (m ≤ 12) &&
    decide (1 ≤ d) && decide (d ≤ daysInMonth y m)

/-- Comparison `datetime(y, m, d) > now` for midnight against the injected clock. -/
def dateAfterNow (y m d : Int) (now : PyDateTime) : Bool :=
  decide (now.year < y) ||
    (now.year == y && (decide (now.month < m) ||
      (now.month == m && decide (now.day < d))))

/-! ## Data model (`app/models/ktp_model.py`, validation-relevant fields) -/

inductive JenisKelamin
  | laki_laki
  | perempuan
deriving DecidableEq

/-- The `.value` string of the `JenisKelamin` enum. -/
def JenisKelamin.value : JenisKelamin → String
  | .laki_laki => "LAKI-LAKI"
  | .perempuan => "PEREMPUAN"

inductive StatusPerkawinan
  | belum_kawin
  | kawin
  | cerai_hidup
  | cerai_mati
deriving DecidableEq

/-- The `.value` string of the `StatusPerkawinan` enum. -/
def StatusPerkawinan.value : StatusPerkawinan → String
  | .belum_kawin => "BELUM KAWIN"
  | .kawin => "KAWIN"
  | .cerai_hidup => "CERAI HIDUP"
  | .cerai_mati => "CERAI MATI"

/-- Model of `KTPData`, restricted to the fields `validate_ktp_data` reads.
The remaining fields (tempat_lahir, alamat, ...)  are never consulted
by the validator and cannot influence its output. -/
structure KTPData where
  nik : String
  nama : String
  tanggal_lahir : Option String
  jenis_kelamin : Option JenisKelamin
  provinsi : Option String
  agama : Option String
  status_perkawinan : Option StatusPerkawinan
  rt_rw : Option String
deriving DecidableEq

/-- Python truthiness of an optional string field (`None` and the
empty string are falsy). -/
def optTruthy : Option String → Bool
  | none => false
  | some s => !(s == "")

/-! ## Defects

The source reports each violation as one message string appended to a
list.  The messages are pairwise produced by distinct code sites; we
represent each site as one constructor carrying the interpolated data,
with `Defect.message` giving the exact source string. -/

inductive Defect
  | nikEmpty
  | nikShape
  | nikRegion (kode_wilayah : String)
  | nikDate (tgl_lahir_nik : String)
  | nikSeq
  | nameInvalid
  | dateDayInvalid (day : Int)
  | dateMonthInvalid (month : Int)
  | dateYearInvalid (year : Int)
  | dateFuture
  | dateImpossible (birth_date : String)
  | dateFormat (birth_date : String)
  | genderInvalid (value : String)
  | provinceUnknown (province : String)
  | religionInvalid (agama : String)
  | maritalInvalid (value : String)
  | rtRwInvalid (rt_rw : String)
  | sexMismatch
  | dateMismatch
deriving DecidableEq

/-- The exact message string the source builds for each defect. -/
def Defect.message : Defect → String
  | .nikEmpty => "NIK tidak boleh kosong"
  | .nikShape => "NIK harus 16 digit angka"
  | .nikRegion k => "Kode wilayah NIK tidak valid: " ++ k
  | .nikDate t => "Tanggal lahir dalam NIK tidak valid: " ++ t
  | .nikSeq => "Nomor urut NIK tidak boleh 0000"
  | .nameInvalid => "Nama tidak valid atau terlalu pendek"
  | .dateDayInvalid d => "Tanggal tidak valid: " ++ toString d
  | .dateMonthInvalid m => "Bulan tidak valid: " ++ toString m
  | .dateYearInvalid y => "Tahun tidak valid: " ++ toString y
  | .dateFuture => "Tanggal lahir tidak boleh di masa depan"
  | .dateImpossible s => "Tanggal tidak valid: " ++ s
  | .dateFormat s => "Format tanggal lahir salah. Gunakan DD-MM-YYYY: " ++ s
  | .genderInvalid v => "Jenis kelamin tidak valid: " ++ v
  | .provinceUnknown p => "Provinsi tidak dikenali: " ++ p
  | .religionInvalid a => "Agama tidak valid: " ++ a
  | .maritalInvalid v => "Status perkawinan tidak valid: " ++ v
  | .rtRwInvalid r => "Format RT/RW tidak valid: " ++ r
  | .sexMismatch => "Jenis kelamin tidak sesuai dengan NIK"
  | .dateMismatch => "Tanggal lahir tidak sesuai dengan NIK"

/-- Append one defect when a condition holds (the ubiquitous
`if cond: errors.append(...)` pattern of the source). -/
def guardD (c : Bool) (d : Defect) : List Defect :=
  if c then [d] else []

/-! ## KTPValidator (`app/services/ktp_validator.py`) -/

/-- The fixed province list of `KTPValidator.__init__` (lines 20-31),
in source order. -/
def valid_provinces : List String :=
  ["ACEH", "SUMATERA UTARA", "SUMATERA BARAT", "RIAU", "JAMBI",
   "SUMATERA SELATAN", "BENGKULU", "LAMPUNG", "KEPULAUAN BANGKA BELITUNG",
   "KEPULAUAN RIAU", "DKI JAKARTA", "JAWA BARAT", "JAWA TENGAH",
   "DI YOGYAKARTA", "JAWA TIMUR", "BANTEN", "BALI", "NUSA TENGGARA BARAT",
   "NUSA TENGGARA TIMUR", "KALIMANTAN BARAT", "KALIMANTAN TENGAH",
   "KALIMANTAN SELATAN", "KALIMANTAN TIMUR", "KALIMANTAN UTARA",
   "SULAWESI UTARA", "SULAWESI TENGAH", "SULAWESI SELATAN",
   "SULAWESI TENGGARA", "GORONTALO", "SULAWESI BARAT", "MALUKU",
   "MALUKU UTARA", "PAPUA", "PAPUA BARAT", "PAPUA SELATAN",
   "PAPUA TENGAH", "PAPUA PEGUNUNGAN", "PAPUA BARAT DAYA"]

def valid_religions : List String :=
  ["ISLAM", "KRISTEN", "KATOLIK", "HINDU", "BUDDHA", "KONGHUCU"]

def valid_genders : List String := ["LAKI-LAKI", "PEREMPUAN"]

def valid_marital_status : List String :=
  ["BELUM KAWIN", "KAWIN", "CERAI HIDUP", "CERAI MATI"]

/-- Classifier for the province defect constructor. -/
def Defect.isProvinceDefect : Defect → Bool
  | .provinceUnknown _ => true
  | _ => false

/-- The province acceptance rule as the specification words it: the
normalized (uppercased, trimmed) province equals a listed name, is a
substring of one, or contains one.  Stated separately so the source
check can be compared against it. -/
def provinceAcceptedSpec (p : String) : Bool :=
  valid_provinces.any (fun q =>
    pyStrip (pyUpper p) == q
      || decide ((pyStrip (pyUpper p)).toList <:+: q.toList)
      || decide (q.toList <:+: (pyStrip (pyUpper p)).toList))

/-- Embedding of `_validate_region_code` (lines 134-156). -/
def validate_region_code (region_code : String) : Bool :=
  if pySliceStr region_code 0 2 == "00" then false
  else if pySliceStr region_code 2 4 == "00" then false
  else if pySliceStr region_code 4 6 == "00" then false
  else true

/-- The pivot expansion inline in `_validate_birth_date_in_nik`
(lines 185-190), as a function of the injected current year. -/
def full_year_in_nik (current_year year : Int) : Int :=
  if year ≤ (current_year - 1900) % 100 then 2000 + year else 1900 + year

/-- The pivot expansion inline in `_cross_validate_nik_data`
(lines 320-325); textually duplicated in the source, so embedded as
its own definition. -/
def year_nik_full_cross (current_year year_nik : Int) : Int :=
  if year_nik ≤ (current_year - 1900) % 100 then 2000 + year_nik
  else 1900 + year_nik

/-- The pivot rule exactly as the specification words it (rule 3): a
2-digit year at most (currentYear − 1900) mod 100 expands to
2000+year, otherwise to 1900+year.  Stated separately so the two code
sites can be compared against it. -/
def pivotRuleSpec (currentYear yy : Int) : Int :=
  if yy ≤ (currentYear - 1900) % 100 then 2000 + yy else 1900 + yy

/-- Embedding of `_validate_birth_date_in_nik` (lines 158-202).  The three `int`
parses run first (lines 169-171); any `ValueError` there, or from the
`datetime` construction, is caught and yields `false`. -/
def validate_birth_date_in_nik (now : PyDateTime) (birth_date_str : String) : Bool :=
  match pyInt? (pySliceStr birth_date_str 0 2),
        pyInt? (pySliceStr birth_date_str 2 4),
        pyInt? (pySliceStr birth_date_str 4 6) with
  | some day0, some month, some year =>
    let day := if 40 < day0 then day0 - 40 else day0
    if day < 1 ∨ 31 < day then false
    else if month < 1 ∨ 12 < month then false
    else
      let fy := full_year_in_nik now.year year
      if datetimeValid fy month day then
        if dateAfterNow fy month day now then false else true
      else false
  | _, _, _ => false

/-- Embedding of `_validate_nik` (lines 96-132). -/
def validate_nik (now : PyDateTime) (nik : String) : List Defect :=
  if nik == "" then [Defect.nikEmpty]
  else if !reMatchDigits16 nik then [Defect.nikShape]
  else
    guardD (!validate_region_code (pySliceStr nik 0 6))
        (Defect.nikRegion (pySliceStr nik 0 6))
      ++ guardD (!validate_birth_date_in_nik now (pySliceStr nik 6 12))
        (Defect.nikDate (pySliceStr nik 6 12))
      ++ guardD (pySliceStr nik 12 16 == "0000") Defect.nikSeq

/-- Embedding of `_validate_birth_date` (lines 204-242).  The outer
`try` catches a failed 3-way unpack of `split` or a failed `int`; the
inner `try` catches only a `ValueError` from the `datetime`
construction.  A component beyond the C `int` bound instead raises an
`OverflowError` that neither handler catches, so the whole call
aborts: the range-check appends precede the construction in the
source, but an escaping exception discards them together with the
return value, hence the model tests the overflow first and the
surviving branch keeps the source order. -/
def validate_birth_date (now : PyDateTime) (birth_date : String) :
    Except PyExn (List Defect) :=
  match pySplitDash birth_date with
  | [ds, ms, ys] =>
    match pyInt? ds, pyInt? ms, pyInt? ys with
    | some day, some month, some year =>
      if datetimeOverflows year month day then Except.error PyExn.overflowError
      else
        Except.ok
          (guardD (decide (day < 1 ∨ 31 < day)) (Defect.dateDayInvalid day)
            ++ guardD (decide (month < 1 ∨ 12 < month)) (Defect.dateMonthInvalid month)
            ++ guardD (decide (year < 1900 ∨ now.year < year)) (Defect.dateYearInvalid year)
            ++ (if datetimeValid year month day then
                  guardD (dateAfterNow year month day now) Defect.dateFuture
                else [Defect.dateImpossible birth_date]))
    | _, _, _ => Except.ok [Defect.dateFormat birth_date]
  | _ => Except.ok [Defect.dateFormat birth_date]

/-- Embedding of `_validate_province` (lines 244-265). -/
def validate_province (province : String) : List Defect :=
  let province_upper := pyStrip (pyUpper province)
  if valid_provinces.contains province_upper then []
  else
    let partial_matches := valid_provinces.filter
      (fun p => strIn province_upper p || strIn p province_upper)
    if partial_matches.isEmpty then [Defect.provinceUnknown province] else []

/-- Embedding of `_validate_rt_rw_format` (lines 267-279): `re.match` with pattern
Caret-digit3-slash-digit3-Dollar; Dollar again also matches before one
trailing newline. -/
def validate_rt_rw_format (rt_rw : String) : Bool :=
  match rt_rw.toList with
  | [a, b, c, '/', d, e, f] =>
    a.isDigit && b.isDigit && c.isDigit && d.isDigit && e.isDigit && f.isDigit
  | [a, b, c, '/', d, e, f, '\n'] =>
    a.isDigit && b.isDigit && c.isDigit && d.isDigit && e.isDigit && f.isDigit
  | _ => false

/-- The sex cross-check block of `_cross_validate_nik_data`
(lines 303-312): female in the NIK iff the raw day exceeds 40,
compared against the declared sex when present. -/
def cross_sex_errors (day0 : Int) (jk : Option JenisKelamin) : List Defect :=
  match jk with
  | some g =>
    guardD (decide (40 < day0) != (g.value == "PEREMPUAN")) Defect.sexMismatch
  | none => []

/-- The declared-date cross-check block of `_cross_validate_nik_data`
(lines 314-335): the inner `try` swallows unpack and parse failures. -/
def cross_date_errors (now : PyDateTime) (day_nik month_nik year_nik : Int)
    (tl : Option String) : List Defect :=
  if optTruthy tl then
    match tl with
    | some bd =>
      match pySplitDash bd with
      | [ds, ms, ys] =>
        match pyInt? ds, pyInt? ms, pyInt? ys with
        | some day_data, some month_data, some year_data =>
          guardD (decide (day_nik ≠ day_data ∨ month_nik ≠ month_data ∨
            year_nik_full_cross now.year year_nik ≠ year_data)) Defect.dateMismatch
        | _, _, _ => []
      | _ => []
    | none => []
  else []

/-- Embedding of `_cross_validate_nik_data` (lines 281-341).  The outer `try`
covers the three `int` parses of the embedded date (lines 299-301),
run before either block; the female de-offset (subtract 40 when the
raw day exceeds 40) applies to the day compared by the date block. -/
def cross_validate_nik_data (now : PyDateTime) (d : KTPData) : List Defect :=
  let tgl := pySliceStr d.nik 6 12
  match pyInt? (pySliceStr tgl 0 2), pyInt? (pySliceStr tgl 2 4),
        pyInt? (pySliceStr tgl 4 6) with
  | some day0, some month_nik, some year_nik =>
    cross_sex_errors day0 d.jenis_kelamin ++
      cross_date_errors now (if 40 < day0 then day0 - 40 else day0)
        month_nik year_nik d.tanggal_lahir
  | _, _, _ => []

/-- The name rule of `validate_ktp_data` (lines 59-61). -/
def nameErrors (d : KTPData) : List Defect :=
  guardD (d.nama == "" || decide ((pyStrip d.nama).length < 2)) Defect.nameInvalid

/-- The declared-birth-date rule (lines 63-66), gated on truthiness.
The only rule that can raise: it propagates the uncaught overflow of
`validate_birth_date`. -/
def declaredDateErrors (now : PyDateTime) (d : KTPData) :
    Except PyExn (List Defect) :=
  match d.tanggal_lahir with
  | some t => if t == "" then Except.ok [] else validate_birth_date now t
  | none => Except.ok []

/-- The sex-value rule (lines 68-70); with the declared enum type the
`.value` is always a member of `valid_genders`. -/
def genderErrors (d : KTPData) : List Defect :=
  match d.jenis_kelamin with
  | some g => guardD (!valid_genders.contains g.value) (Defect.genderInvalid g.value)
  | none => []

/-- The province rule (lines 72-75), gated on truthiness. -/
def provinceErrors (d : KTPData) : List Defect :=
  match d.provinsi with
  | some p => if p == "" then [] else validate_province p
  | none => []

/-- The religion rule (lines 77-79). -/
def religionErrors (d : KTPData) : List Defect :=
  match d.agama with
  | some a =>
    guardD (!(a == "") && !valid_religions.contains (pyUpper a))
      (Defect.religionInvalid a)
  | none => []

/-- The marital-status rule (lines 81-83). -/
def maritalErrors (d : KTPData) : List Defect :=
  match d.status_perkawinan with
  | some s =>
    guardD (!valid_marital_status.contains s.value) (Defect.maritalInvalid s.value)
  | none => []

/-- The RT/RW rule (lines 85-87). -/
def rtRwErrors (d : KTPData) : List Defect :=
  match d.rt_rw with
  | some r => guardD (!(r == "") && !validate_rt_rw_format r) (Defect.rtRwInvalid r)
  | none => []

/-- The cross-validation gate (lines 89-92): NIK truthy and declared
birth date truthy. -/
def crossErrors (now : PyDateTime) (d : KTPData) : List Defect :=
  if !(d.nik == "") && optTruthy d.tanggal_lahir
  then cross_validate_nik_data now d else []

/-- Embedding of `validate_ktp_data` (lines 43-94): the rules run in
source order, each appending to the same accumulator; the verdict is
emptiness.  Only the declared-birth-date rule can raise, and an
uncaught exception aborts the whole call with no outcome, so that
rule is matched first while the surviving defect list keeps the
source evaluation order. -/
def validate_ktp_data (now : PyDateTime) (d : KTPData) :
    Except PyExn (Bool × List Defect) :=
  match declaredDateErrors now d with
  | Except.error exn => Except.error exn
  | Except.ok dateErrs =>
    let errors :=
      validate_nik now d.nik
        ++ nameErrors d
        ++ dateErrs
        ++ genderErrors d
        ++ provinceErrors d
        ++ religionErrors d
        ++ maritalErrors d
        ++ rtRwErrors d
        ++ crossErrors now d
    Except.ok (errors.isEmpty, errors)

/-! ## Score fusion -/

/-- Embedding of `calculate_confidence_score` (lines 385-407): penalty only when
the error list is nonempty, capped at 0.3, then the image-quality
multiplication, then the final clamp. -/
def calculate_confidence_score (confidence_score : ℚ)
    (validation_errors : List Defect) (image_quality_score : ℚ) : ℚ :=
  let base_score :=
    if !validation_errors.isEmpty then
      confidence_score - min 0.3 ((validation_errors.length : ℚ) * 0.1)
    else confidence_score
  max 0 (min 1 (base_score * image_quality_score))

/-- The verdict-and-score update of `verify_ktp`
(`app/api/endpoints.py` lines 93-110), along the path where extracted
data is present (otherwise the validator is never invoked and there is
no fusion step).  `prior` is the validation-error list the extractor
already reported, which the source extends with the new validator
errors before scoring; only the new errors are counted against the
threshold. -/
def verify_ktp_step (is_valid_ktp : Bool) (prior validation_errors : List Defect)
    (confidence_score image_quality_score : ℚ) : Bool × ℚ :=
  if is_valid_ktp then
    if !validation_errors.isEmpty then
      let combined := prior ++ validation_errors
      (if 3 < validation_errors.length then false else is_valid_ktp,
        calculate_confidence_score confidence_score combined image_quality_score)
    else
      (is_valid_ktp,
        calculate_confidence_score confidence_score prior image_quality_score)
  else (is_valid_ktp, confidence_score)

/-! ## Helper lemmas -/

lemma toList_mk (l : List Char) : (String.mk l).toList = l := rfl

lemma mem_guardD {e : Defect} {c : Bool} {d : Defect} :
    e ∈ guardD c d ↔ c = true ∧ e = d := by
  unfold guardD; split <;> simp_all

lemma digit_not_pyWhitespace {c : Char} (h : c.isDigit = true) :
    pyWhitespace c = false := by
  by_contra hx
  rw [Bool.not_eq_false] at hx
  unfold pyWhitespace at hx
  simp only [Bool.or_eq_true, beq_iff_eq] at hx
  rcases hx with ((((h1 | h1) | h1) | h1) | h1) | h1 <;>
    (subst h1; exact absurd h (by decide))

lemma dropWhile_eq_self_of_all {p : Char → Bool} {l : List Char}
    (h : ∀ c ∈ l, p c = false) : l.dropWhile p = l := by
  cases l with
  | nil => rfl
  | cons a t => simp [List.dropWhile_cons, h a (by simp)]

lemma stripList_eq_self {l : List Char}
    (h : ∀ c ∈ l, pyWhitespace c = false) : stripList l = l := by
  unfold stripList
  rw [dropWhile_eq_self_of_all h, dropWhile_eq_self_of_all, List.reverse_reverse]
  intro c hc
  exact h c (List.mem_reverse.mp hc)

lemma pyInt?_digits {l : List Char} (h1 : l ≠ [])
    (h2 : l.all Char.isDigit = true) :
    pyInt? (String.mk l) = some ((digitsVal l : Nat) : Int) := by
  have hall : ∀ c ∈ l, Char.isDigit c = true := List.all_eq_true.mp h2
  have hs : stripList l = l :=
    stripList_eq_self (fun c hc => digit_not_pyWhitespace (hall c hc))
  unfold pyInt?
  rw [toList_mk, hs]
  cases l with
  | nil => exact absurd rfl h1
  | cons a t =>
    have ha : a.isDigit = true := hall a (by simp)
    have hm : a ≠ '-' := by rintro rfl; exact absurd ha (by decide)
    have hp : a ≠ '+' := by rintro rfl; exact absurd ha (by decide)
    have hu : parseUnsigned? (a :: t) = some (digitsVal (a :: t)) := by
      unfold parseUnsigned?
      simp [h2]
    simp [List.head?, hm, hp, hu]

lemma slice_list_all_digits {s : String} (h : s.toList.all Char.isDigit = true)
    (a b : Nat) : ((s.toList.drop a).take (b - a)).all Char.isDigit = true := by
  rw [List.all_eq_true] at h ⊢
  intro c hc
  exact h c (List.drop_subset _ _ (List.take_subset _ _ hc))

lemma slice_list_ne_nil {s : String} (h16 : s.toList.length = 16) {a b : Nat}
    (hab : a < b) (ha : a < 16) : (s.toList.drop a).take (b - a) ≠ [] := by
  have hl : 0 < ((s.toList.drop a).take (b - a)).length := by
    rw [List.length_take, List.length_drop, h16]
    exact lt_min (by omega) (by omega)
  exact List.ne_nil_of_length_pos hl

lemma pySliceStr_mk (s : String) (a b : Nat) :
    pySliceStr s a b = String.mk ((s.toList.drop a).take (b - a)) := rfl

/-- For a 16-digit identity number every 2-digit sub-slice parses. -/
lemma pyInt?_slice {s : String} (h : isDigit16 s = true) {a b : Nat}
    (hab : a < b) (ha : a < 16) :
    pyInt? (pySliceStr s a b) = some ((digitsVal ((s.toList.drop a).take (b - a)) : Nat) : Int) := by
  have h' : s.toList.length = 16 ∧ s.toList.all Char.isDigit = true := by
    have := h
    unfold isDigit16 at this
    simp only [Bool.and_eq_true, beq_iff_eq] at this
    exact this
  rw [pySliceStr_mk]
  exact pyInt?_digits (slice_list_ne_nil h'.1 hab ha) (slice_list_all_digits h'.2 a b)

lemma slice_slice_0_2 (s : String) :
    pySliceStr (pySliceStr s 6 12) 0 2 = pySliceStr s 6 8 := by
  simp only [pySliceStr_mk, toList_mk]
  congr 1
  simp [List.take_take]

lemma slice_slice_2_4 (s : String) :
    pySliceStr (pySliceStr s 6 12) 2 4 = pySliceStr s 8 10 := by
  simp only [pySliceStr_mk, toList_mk]
  congr 1
  rw [List.drop_take, List.take_take, List.drop_drop]
  norm_num

lemma slice_slice_4_6 (s : String) :
    pySliceStr (pySliceStr s 6 12) 4 6 = pySliceStr s 10 12 := by
  simp only [pySliceStr_mk, toList_mk]
  congr 1
  rw [List.drop_take, List.take_take, List.drop_drop]
  norm_num

lemma isDigit16_ne_empty {s : String} (h : isDigit16 s = true) :
    (s == "") = false := by
  unfold isDigit16 at h
  simp only [Bool.and_eq_true, beq_iff_eq] at h
  simp only [beq_eq_false_iff_ne, ne_eq]
  rintro rfl
  simp at h

lemma reMatchDigits16_of_isDigit16 {s : String} (h : isDigit16 s = true) :
    reMatchDigits16 s = true := by
  have h' : s.toList.length = 16 ∧ s.toList.all Char.isDigit = true := by
    unfold isDigit16 at h
    simp only [Bool.and_eq_true, beq_iff_eq] at h
    exact h
  unfold reMatchDigits16
  simp only [Bool.or_eq_true, Bool.and_eq_true, beq_iff_eq]
  left
  exact ⟨h'.1, h'.2⟩

/-! ## Which constructors each rule can emit -/

lemma validate_ktp_data_ok_iff (now : PyDateTime) (d : KTPData) (v : Bool)
    (errs : List Defect) :
    validate_ktp_data now d = Except.ok (v, errs) ↔
      ∃ dateErrs, declaredDateErrors now d = Except.ok dateErrs ∧
        errs = validate_nik now d.nik ++ nameErrors d ++ dateErrs
          ++ genderErrors d ++ provinceErrors d ++ religionErrors d
          ++ maritalErrors d ++ rtRwErrors d ++ crossErrors now d ∧
        v = errs.isEmpty := by
  unfold validate_ktp_data
  cases h : declaredDateErrors now d with
  | error exn => simp
  | ok de =>
    simp only [Except.ok.injEq, Prod.mk.injEq]
    constructor
    · rintro ⟨rfl, rfl⟩
      exact ⟨de, rfl, rfl, rfl⟩
    · rintro ⟨de2, hde2, rfl, rfl⟩
      have hd : de = de2 := hde2
      subst hd
      exact ⟨rfl, rfl⟩

lemma mem_validate_nik {now : PyDateTime} {nik : String} {e : Defect}
    (h : e ∈ validate_nik now nik) :
    e = .nikEmpty ∨ e = .nikShape ∨ (∃ s, e = .nikRegion s) ∨
      (∃ s, e = .nikDate s) ∨ e = .nikSeq := by
  unfold validate_nik at h
  split at h
  · simp at h; tauto
  · split at h
    · simp at h; tauto
    · simp only [List.mem_append, mem_guardD] at h
      rcases h with (⟨_, rfl⟩ | ⟨_, rfl⟩) | ⟨_, rfl⟩
      · exact Or.inr (Or.inr (Or.inl ⟨_, rfl⟩))
      · exact Or.inr (Or.inr (Or.inr (Or.inl ⟨_, rfl⟩)))
      · exact Or.inr (Or.inr (Or.inr (Or.inr rfl)))

lemma mem_nameErrors {d : KTPData} {e : Defect} (h : e ∈ nameErrors d) :
    e = .nameInvalid := by
  unfold nameErrors at h
  exact (mem_guardD.mp h).2

lemma mem_validate_birth_date {now : PyDateTime} {s : String} {l : List Defect}
    {e : Defect} (hok : validate_birth_date now s = Except.ok l) (h : e ∈ l) :
    (∃ x, e = .dateDayInvalid x) ∨ (∃ x, e = .dateMonthInvalid x) ∨
      (∃ x, e = .dateYearInvalid x) ∨ e = .dateFuture ∨
      (∃ t, e = .dateImpossible t) ∨ (∃ t, e = .dateFormat t) := by
  unfold validate_birth_date at hok
  split at hok
  · split at hok
    · split at hok
      · exact absurd hok (by simp)
      · have hl := hok
        rw [Except.ok.injEq] at hl
        subst hl
        simp only [List.mem_append, mem_guardD] at h
        rcases h with ((⟨_, h⟩ | ⟨_, h⟩) | ⟨_, h⟩) | h
        · tauto
        · tauto
        · tauto
        · split at h
          · exact Or.inr (Or.inr (Or.inr (Or.inl (mem_guardD.mp h).2)))
          · simp at h; tauto
    · have hl := hok
      rw [Except.ok.injEq] at hl
      subst hl
      simp at h; tauto
  · have hl := hok
    rw [Except.ok.injEq] at hl
    subst hl
    simp at h; tauto

lemma mem_declaredDateErrors {now : PyDateTime} {d : KTPData} {l : List Defect}
    {e : Defect} (hok : declaredDateErrors now d = Except.ok l) (h : e ∈ l) :
    (∃ x, e = .dateDayInvalid x) ∨ (∃ x, e = .dateMonthInvalid x) ∨
      (∃ x, e = .dateYearInvalid x) ∨ e = .dateFuture ∨
      (∃ t, e = .dateImpossible t) ∨ (∃ t, e = .dateFormat t) := by
  unfold declaredDateErrors at hok
  split at hok
  · split at hok
    · have hl := hok
      rw [Except.ok.injEq] at hl
      subst hl
      simp at h
    · exact mem_validate_birth_date hok h
  · have hl := hok
    rw [Except.ok.injEq] at hl
    subst hl
    simp at h

lemma mem_genderErrors {d : KTPData} {e : Defect} (h : e ∈ genderErrors d) :
    ∃ s, e = .genderInvalid s := by
  unfold genderErrors at h
  split at h
  · exact ⟨_, (mem_guardD.mp h).2⟩
  · simp at h

lemma mem_provinceErrors {d : KTPData} {e : Defect} (h : e ∈ provinceErrors d) :
    ∃ s, e = .provinceUnknown s := by
  unfold provinceErrors at h
  split at h
  · split at h
    · simp at h
    · simp only [validate_province] at h
      split at h
      · simp at h
      · split at h
        · simp at h; exact ⟨_, h⟩
        · simp at h
  · simp at h

lemma mem_religionErrors {d : KTPData} {e : Defect} (h : e ∈ religionErrors d) :
    ∃ s, e = .religionInvalid s := by
  unfold religionErrors at h
  split at h
  · exact ⟨_, (mem_guardD.mp h).2⟩
  · simp at h

lemma mem_maritalErrors {d : KTPData} {e : Defect} (h : e ∈ maritalErrors d) :
    ∃ s, e = .maritalInvalid s := by
  unfold maritalErrors at h
  split at h
  · exact ⟨_, (mem_guardD.mp h).2⟩
  · simp at h

lemma mem_rtRwErrors {d : KTPData} {e : Defect} (h : e ∈ rtRwErrors d) :
    ∃ s, e = .rtRwInvalid s := by
  unfold rtRwErrors at h
  split at h
  · exact ⟨_, (mem_guardD.mp h).2⟩
  · simp at h

lemma mem_cross_sex_errors {day0 : Int} {jk : Option JenisKelamin} {e : Defect}
    (h : e ∈ cross_sex_errors day0 jk) : e = .sexMismatch := by
  unfold cross_sex_errors at h
  split at h
  · exact (mem_guardD.mp h).2
  · simp at h

lemma mem_cross_date_errors {now : PyDateTime} {a b c : Int} {tl : Option String}
    {e : Defect} (h : e ∈ cross_date_errors now a b c tl) : e = .dateMismatch := by
  unfold cross_date_errors at h
  split at h
  · split at h
    · split at h
      · split at h
        · exact (mem_guardD.mp h).2
        · simp at h
      · simp at h
    · simp at h
  · simp at h

lemma mem_cross_validate_nik_data {now : PyDateTime} {d : KTPData} {e : Defect}
    (h : e ∈ cross_validate_nik_data now d) :
    e = .sexMismatch ∨ e = .dateMismatch := by
  simp only [cross_validate_nik_data] at h
  split at h
  · simp only [List.mem_append] at h
    rcases h with h | h
    · exact Or.inl (mem_cross_sex_errors h)
    · exact Or.inr (mem_cross_date_errors h)
  · simp at h

lemma mem_crossErrors {now : PyDateTime} {d : KTPData} {e : Defect}
    (h : e ∈ crossErrors now d) : e = .sexMismatch ∨ e = .dateMismatch := by
  unfold crossErrors at h
  split at h
  · exact mem_cross_validate_nik_data h
  · simp at h

/-! ## Score-fusion lemmas -/

/-- Closed form of the score: the empty-list branch coincides with a
zero penalty, so the guard can be folded away. -/
lemma calculate_confidence_score_closed (c q : ℚ) (e : List Defect) :
    calculate_confidence_score c e q =
      max 0 (min 1 ((c - min 0.3 ((e.length : ℚ) * 0.1)) * q)) := by
  unfold calculate_confidence_score
  split
  · rfl
  · rename_i h
    have he : e = [] := by
      cases e
      · rfl
      · simp at h
    subst he
    simp only [List.length_nil, Nat.cast_zero, zero_mul]
    rw [min_eq_right (by norm_num : (0:ℚ) ≤ 0.3), sub_zero]

lemma score_mono_conf {q : ℚ} (hq : 0 ≤ q) {c1 c2 : ℚ} (h : c1 ≤ c2)
    (e : List Defect) :
    calculate_confidence_score c1 e q ≤ calculate_confidence_score c2 e q := by
  rw [calculate_confidence_score_closed, calculate_confidence_score_closed]
  exact max_le_max le_rfl (min_le_min le_rfl
    (mul_le_mul_of_nonneg_right (sub_le_sub_right h _) hq))

lemma score_anti_mono_defects {c q : ℚ} (hq : 0 ≤ q) {e1 e2 : List Defect}
    (h : e1.length ≤ e2.length) :
    calculate_confidence_score c e2 q ≤ calculate_confidence_score c e1 q := by
  rw [calculate_confidence_score_closed, calculate_confidence_score_closed]
  refine max_le_max le_rfl (min_le_min le_rfl
    (mul_le_mul_of_nonneg_right (sub_le_sub_left ?_ _) hq))
  refine min_le_min le_rfl (mul_le_mul_of_nonneg_right ?_ (by norm_num))
  exact_mod_cast h

/-! ## Claims about the score fuser and the verdict update -/

/-- Claim C1: in the verdict update of `verify_ktp`, a validator
defect count above 3 forces the final validity to false whatever the
numeric scores and the upstream flag are, and a defect count of at
most 3 leaves the upstream validity flag unchanged. -/
theorem fuse_validity_threshold (u : Bool) (prior errs : List Defect) (c q : ℚ) :
    (3 < errs.length → (verify_ktp_step u prior errs c q).1 = false) ∧
    (errs.length ≤ 3 → (verify_ktp_step u prior errs c q).1 = u) := by
  constructor
  · intro h
    have hne : errs.isEmpty = false := by
      cases errs
      · simp at h
      · rfl
    cases u
    · simp [verify_ktp_step]
    · simp [verify_ktp_step, hne, h]
  · intro h
    have h3 : ¬ 3 < errs.length := by omega
    cases u
    · simp [verify_ktp_step]
    · cases he : errs.isEmpty
      · simp [verify_ktp_step, he, h3]
      · simp [verify_ktp_step, he]

theorem fuse_validity_threshold_witness :
    (3 < ([.nikShape, .nikSeq, .nikEmpty, .nameInvalid] : List Defect).length ∧
      (verify_ktp_step true [] [.nikShape, .nikSeq, .nikEmpty, .nameInvalid]
        0.9 1).1 = false) ∧
    (([.nikShape] : List Defect).length ≤ 3 ∧
      (verify_ktp_step true [] [.nikShape] 0.9 1).1 = true) :=
  ⟨⟨by decide,
    (fuse_validity_threshold true [] [.nikShape, .nikSeq, .nikEmpty, .nameInvalid]
      0.9 1).1 (by decide)⟩,
   ⟨by decide,
    (fuse_validity_threshold true [] [.nikShape] 0.9 1).2 (by decide)⟩⟩

/-- Claim C2 is refuted by the code: `validate_ktp_data` does raise
on a malformed declared birth date.  A component of the declared date
at or above 2^31 — here the year 9999999999 — makes the `datetime`
construction raise an `OverflowError`, which neither the inner
`except ValueError` nor the outer `except (ValueError, IndexError)`
catches, so the call aborts with no outcome instead of reporting a
defect.  The theorem evaluates the embedding at that failing input. -/
theorem validate_overflow_raises :
    validate_ktp_data ⟨2026, 10, 12⟩
      ⟨"3201012501900001", "BUDI", some "01-01-9999999999", none,
        none, none, none, none⟩ = Except.error PyExn.overflowError := rfl

/-- Counterexample to claim C3 as stated: with three defects and a
perfect image score, an extractor confidence of 2 yields final
confidence 1 whereas the clamped confidence 1 yields 0.7, so the
fuser does not behave as if the input were clamped to [0,1] before
the penalty. -/
theorem confidence_no_input_clamp_cex :
    calculate_confidence_score 2 [.nikShape, .nikSeq, .nikEmpty] 1 ≠
      calculate_confidence_score 1 [.nikShape, .nikSeq, .nikEmpty] 1 := by
  rw [calculate_confidence_score_closed, calculate_confidence_score_closed]
  norm_num [min_def, max_def]

/-- Claim C3, amended: the fuser clamps only its final result; the
extractor confidence enters the penalty subtraction unclamped, and for
a nonnegative image-quality score an out-of-range confidence bounds
the clamped one from the corresponding side (above 1 it can only give
a result at least that of 1; below 0 at most that of 0). -/
theorem confidence_out_of_range_monotone (c q : ℚ) (e : List Defect)
    (hq : 0 ≤ q) :
    (1 ≤ c → calculate_confidence_score 1 e q ≤ calculate_confidence_score c e q) ∧
    (c ≤ 0 → calculate_confidence_score c e q ≤ calculate_confidence_score 0 e q) :=
  ⟨fun h => score_mono_conf hq h e, fun h => score_mono_conf hq h e⟩

theorem confidence_out_of_range_monotone_witness :
    (0:ℚ) ≤ 1 ∧ (1:ℚ) ≤ 2 ∧
      calculate_confidence_score 1 [.nikShape] 1 ≤
        calculate_confidence_score 2 [.nikShape] 1 :=
  ⟨zero_le_one, one_le_two,
    (confidence_out_of_range_monotone 2 1 [.nikShape] zero_le_one).1 one_le_two⟩

/-- Claim C7: the two textually duplicated pivot-year expansions, in
the embedded-birth-date check and in the declared-vs-embedded date
cross-check, both realise the one pivot formula of the specification:
2000+yy when yy is at most (currentYear − 1900) mod 100, else 1900+yy. -/
theorem pivot_rule_both_sites (current_year yy : Int) :
    full_year_in_nik current_year yy = pivotRuleSpec current_year yy ∧
    year_nik_full_cross current_year yy = pivotRuleSpec current_year yy ∧
    (yy ≤ (current_year - 1900) % 100 →
      full_year_in_nik current_year yy = 2000 + yy ∧
      year_nik_full_cross current_year yy = 2000 + yy) ∧
    (¬ yy ≤ (current_year - 1900) % 100 →
      full_year_in_nik current_year yy = 1900 + yy ∧
      year_nik_full_cross current_year yy = 1900 + yy) := by
  unfold full_year_in_nik year_nik_full_cross pivotRuleSpec
  refine ⟨rfl, rfl, fun h => ?_, fun h => ?_⟩ <;> simp [h]

theorem pivot_rule_both_sites_witness :
    full_year_in_nik 2026 26 = 2026 ∧ year_nik_full_cross 2026 99 = 1999 :=
  ⟨((pivot_rule_both_sites 2026 26).2.2.1 (by decide)).1,
   ((pivot_rule_both_sites 2026 99).2.2.2 (by decide)).2⟩

/-- Claim C8: the fused confidence always lies in [0,1], for every
rational extractor confidence, defect list and image-quality score,
out-of-range and negative inputs included. -/
theorem confidence_in_unit_interval (c : ℚ) (e : List Defect) (q : ℚ) :
    0 ≤ calculate_confidence_score c e q ∧ calculate_confidence_score c e q ≤ 1 := by
  rw [calculate_confidence_score_closed]
  exact ⟨le_max_left _ _, max_le zero_le_one (min_le_left _ _)⟩

/-- Counterexample to claim C9 as stated: with a negative
image-quality score the fused confidence can strictly increase when a
defect is added (extractor confidence 0, quality −1: one defect gives
0.1, zero defects give 0). -/
theorem confidence_monotonicity_cex :
    ¬ (calculate_confidence_score 0 [.nikShape] (-1) ≤
        calculate_confidence_score 0 [] (-1)) := by
  rw [calculate_confidence_score_closed, calculate_confidence_score_closed]
  norm_num [min_def, max_def]

/-- Claim C9, amended: for every fixed extractor confidence and every
fixed nonnegative image-quality score (in particular on the declared
[0,1] domain) the fused confidence is monotonically non-increasing in
the defect count; for negative image-quality scores monotonicity can
fail. -/
theorem confidence_nonincreasing_in_defects (c q : ℚ) (e1 e2 : List Defect)
    (hq : 0 ≤ q) (h : e1.length ≤ e2.length) :
    calculate_confidence_score c e2 q ≤ calculate_confidence_score c e1 q :=
  score_anti_mono_defects hq h

theorem confidence_nonincreasing_in_defects_witness :
    (0:ℚ) ≤ 1 ∧ ([] : List Defect).length ≤ ([.nikShape] : List Defect).length ∧
      calculate_confidence_score 0.5 [.nikShape] 1 ≤
        calculate_confidence_score 0.5 [] 1 :=
  ⟨zero_le_one, by decide,
    confidence_nonincreasing_in_defects 0.5 1 [] [.nikShape] zero_le_one (by decide)⟩

/-! ## Claims about the field validator -/

/-- Claim C10: a 16-digit identity number whose raw embedded day
(digits 7-8) lies in [32,40] always fails the embedded birth-date
check, whatever the month, year and injected clock — such a day
exceeds 31 but receives no female minus-40 adjustment, which applies
only strictly above 40 — and whenever the validation call returns an
outcome at all, that outcome carries the embedded-date defect. -/
theorem raw_day_32_40_embedded_date_defect (now : PyDateTime) (d : KTPData)
    (day0 : Int) (v : Bool) (errs : List Defect)
    (h16 : isDigit16 d.nik = true)
    (hparse : pyInt? (pySliceStr d.nik 6 8) = some day0)
    (h32 : 32 ≤ day0) (h40 : day0 ≤ 40)
    (hok : validate_ktp_data now d = Except.ok (v, errs)) :
    validate_birth_date_in_nik now (pySliceStr d.nik 6 12) = false ∧
    Defect.nikDate (pySliceStr d.nik 6 12) ∈ errs := by
  have hfalse : validate_birth_date_in_nik now (pySliceStr d.nik 6 12) = false := by
    unfold validate_birth_date_in_nik
    rw [slice_slice_0_2, slice_slice_2_4, slice_slice_4_6, hparse,
      pyInt?_slice h16 (by norm_num : (8:Nat) < 10) (by norm_num : (8:Nat) < 16),
      pyInt?_slice h16 (by norm_num : (10:Nat) < 12) (by norm_num : (10:Nat) < 16)]
    simp [show ¬ (40:Int) < day0 from by omega,
      show day0 < 1 ∨ 31 < day0 from Or.inr (by omega)]
  have hmem : Defect.nikDate (pySliceStr d.nik 6 12) ∈ validate_nik now d.nik := by
    unfold validate_nik
    rw [isDigit16_ne_empty h16, reMatchDigits16_of_isDigit16 h16]
    simp [hfalse, mem_guardD]
  obtain ⟨dateErrs, -, rfl, -⟩ := (validate_ktp_data_ok_iff now d v errs).mp hok
  refine ⟨hfalse, ?_⟩
  simp only [List.mem_append]
  tauto

theorem raw_day_32_40_embedded_date_defect_witness :
    isDigit16 "3201013501900001" = true ∧
    pyInt? (pySliceStr "3201013501900001" 6 8) = some 35 ∧
    validate_ktp_data ⟨2026, 10, 12⟩
      ⟨"3201013501900001", "BUDI", none, none, none, none, none, none⟩ =
        Except.ok (false, [Defect.nikDate "350190"]) ∧
    (validate_birth_date_in_nik ⟨2026, 10, 12⟩
        (pySliceStr "3201013501900001" 6 12) = false ∧
      Defect.nikDate (pySliceStr "3201013501900001" 6 12) ∈
        [Defect.nikDate "350190"]) :=
  ⟨by decide, by decide, rfl,
    raw_day_32_40_embedded_date_defect ⟨2026, 10, 12⟩
      ⟨"3201013501900001", "BUDI", none, none, none, none, none, none⟩ 35
      false [Defect.nikDate "350190"]
      (by decide) (by decide) (by decide) (by decide) rfl⟩

/-- Counterexample to claim C5 as stated: the 17-character identity
number of 16 digits followed by one newline is present and not
exactly 16 ASCII digits, yet the outcome contains no shape defect at
all — the source regex accepts it, Dollar matching before one
trailing newline — and instead carries an embedded-date sub-rule
defect plus identity-number-derived cross-validation defects (raw
day 78 encodes female against the declared male, and the embedded
date differs from the declared one).  This falsifies both the claimed
single shape defect and the claimed absence of sub-rule and
cross-validation defects on that domain. -/
theorem shape_regex_cross_leak_cex :
    validate_ktp_data ⟨2026, 10, 12⟩
      ⟨"1234567890123456\n", "BUDI", some "01-01-1990", some .laki_laki,
        none, none, none, none⟩ =
      Except.ok (false,
        [Defect.nikDate "789012", Defect.sexMismatch, Defect.dateMismatch]) := rfl

/-- Claim C5, amended: when the identity number is present but
rejected by the shape regex of the source (16 digits, with one
trailing newline tolerated), then whenever the call returns an
outcome — a declared-birth-date component at or above 2^31 instead
raises an uncaught overflow and produces none — that outcome has
exactly one shape defect and no region, embedded-date, sequence or
emptiness defect; cross-validation defects derived from the identity
number can however still appear when a declared birth date is also
present. -/
theorem bad_shape_nik_rules_skipped (now : PyDateTime) (d : KTPData)
    (v : Bool) (errs : List Defect)
    (hne : (d.nik == "") = false) (hshape : reMatchDigits16 d.nik = false)
    (hok : validate_ktp_data now d = Except.ok (v, errs)) :
    errs.count Defect.nikShape = 1 ∧
    ∀ e ∈ errs, (∀ s, e ≠ Defect.nikRegion s) ∧
      (∀ s, e ≠ Defect.nikDate s) ∧ e ≠ Defect.nikSeq ∧ e ≠ Defect.nikEmpty := by
  have hnik : validate_nik now d.nik = [Defect.nikShape] := by
    unfold validate_nik
    rw [hne, hshape]
    simp
  obtain ⟨dateErrs, hde, rfl, -⟩ := (validate_ktp_data_ok_iff now d v errs).mp hok
  constructor
  · simp only [List.count_append, hnik]
    have z2 : (nameErrors d).count Defect.nikShape = 0 :=
      List.count_eq_zero.mpr (fun hm => Defect.noConfusion (mem_nameErrors hm))
    have z3 : dateErrs.count Defect.nikShape = 0 :=
      List.count_eq_zero.mpr (fun hm => by
        rcases mem_declaredDateErrors hde hm with ⟨x, h⟩|⟨x, h⟩|⟨x, h⟩|h|⟨t, h⟩|⟨t, h⟩ <;>
          exact Defect.noConfusion h)
    have z4 : (genderErrors d).count Defect.nikShape = 0 :=
      List.count_eq_zero.mpr (fun hm => by
        rcases mem_genderErrors hm with ⟨s, h⟩; exact Defect.noConfusion h)
    have z5 : (provinceErrors d).count Defect.nikShape = 0 :=
      List.count_eq_zero.mpr (fun hm => by
        rcases mem_provinceErrors hm with ⟨s, h⟩; exact Defect.noConfusion h)
    have z6 : (religionErrors d).count Defect.nikShape = 0 :=
      List.count_eq_zero.mpr (fun hm => by
        rcases mem_religionErrors hm with ⟨s, h⟩; exact Defect.noConfusion h)
    have z7 : (maritalErrors d).count Defect.nikShape = 0 :=
      List.count_eq_zero.mpr (fun hm => by
        rcases mem_maritalErrors hm with ⟨s, h⟩; exact Defect.noConfusion h)
    have z8 : (rtRwErrors d).count Defect.nikShape = 0 :=
      List.count_eq_zero.mpr (fun hm => by
        rcases mem_rtRwErrors hm with ⟨s, h⟩; exact Defect.noConfusion h)
    have z9 : (crossErrors now d).count Defect.nikShape = 0 :=
      List.count_eq_zero.mpr (fun hm => by
        rcases mem_crossErrors hm with h | h <;> exact Defect.noConfusion h)
    rw [z2, z3, z4, z5, z6, z7, z8, z9]
    decide
  · intro e he
    simp only [List.mem_append] at he
    rcases he with ((((((((h|h)|h)|h)|h)|h)|h)|h)|h)
    · rw [hnik] at h
      simp only [List.mem_singleton] at h
      subst h
      refine ⟨fun s => ?_, fun s => ?_, ?_, ?_⟩ <;> simp
    · have h' := mem_nameErrors h
      subst h'
      refine ⟨fun s => ?_, fun s => ?_, ?_, ?_⟩ <;> simp
    · rcases mem_declaredDateErrors hde h with ⟨x, rfl⟩|⟨x, rfl⟩|⟨x, rfl⟩|rfl|⟨t, rfl⟩|⟨t, rfl⟩ <;>
        (refine ⟨fun s => ?_, fun s => ?_, ?_, ?_⟩ <;> simp)
    · rcases mem_genderErrors h with ⟨w, rfl⟩
      refine ⟨fun s => ?_, fun s => ?_, ?_, ?_⟩ <;> simp
    · rcases mem_provinceErrors h with ⟨w, rfl⟩
      refine ⟨fun s => ?_, fun s => ?_, ?_, ?_⟩ <;> simp
    · rcases mem_religionErrors h with ⟨w, rfl⟩
      refine ⟨fun s => ?_, fun s => ?_, ?_, ?_⟩ <;> simp
    · rcases mem_maritalErrors h with ⟨w, rfl⟩
      refine ⟨fun s => ?_, fun s => ?_, ?_, ?_⟩ <;> simp
    · rcases mem_rtRwErrors h with ⟨w, rfl⟩
      refine ⟨fun s => ?_, fun s => ?_, ?_, ?_⟩ <;> simp
    · rcases mem_crossErrors h with rfl | rfl <;>
        (refine ⟨fun s => ?_, fun s => ?_, ?_, ?_⟩ <;> simp)

theorem bad_shape_nik_rules_skipped_witness :
    ("123" == "") = false ∧ reMatchDigits16 "123" = false ∧
    validate_ktp_data ⟨2026, 10, 12⟩
      ⟨"123", "BUDI", none, none, none, none, none, none⟩ =
        Except.ok (false, [Defect.nikShape]) ∧
    (([Defect.nikShape] : List Defect).count Defect.nikShape = 1 ∧
      ∀ e ∈ ([Defect.nikShape] : List Defect),
        (∀ s, e ≠ Defect.nikRegion s) ∧ (∀ s, e ≠ Defect.nikDate s) ∧
          e ≠ Defect.nikSeq ∧ e ≠ Defect.nikEmpty) :=
  ⟨by decide, by decide, rfl,
    bad_shape_nik_rules_skipped ⟨2026, 10, 12⟩
      ⟨"123", "BUDI", none, none, none, none, none, none⟩
      false [Defect.nikShape] (by decide) (by decide) rfl⟩

/-- The sex-mismatch defect can only originate from the
cross-validation segment of a normally returned outcome. -/
lemma sexMismatch_mem_iff {now : PyDateTime} {d : KTPData} {v : Bool}
    {errs : List Defect} (hok : validate_ktp_data now d = Except.ok (v, errs)) :
    Defect.sexMismatch ∈ errs ↔
      Defect.sexMismatch ∈ crossErrors now d := by
  obtain ⟨dateErrs, hde, rfl, -⟩ := (validate_ktp_data_ok_iff now d v errs).mp hok
  simp only [List.mem_append]
  constructor
  · rintro ((((((((h|h)|h)|h)|h)|h)|h)|h)|h)
    · rcases mem_validate_nik h with h|h|⟨s,h⟩|⟨s,h⟩|h <;> exact Defect.noConfusion h
    · exact Defect.noConfusion (mem_nameErrors h)
    · rcases mem_declaredDateErrors hde h with ⟨x,h⟩|⟨x,h⟩|⟨x,h⟩|h|⟨t,h⟩|⟨t,h⟩ <;>
        exact Defect.noConfusion h
    · rcases mem_genderErrors h with ⟨s,h⟩; exact Defect.noConfusion h
    · rcases mem_provinceErrors h with ⟨s,h⟩; exact Defect.noConfusion h
    · rcases mem_religionErrors h with ⟨s,h⟩; exact Defect.noConfusion h
    · rcases mem_maritalErrors h with ⟨s,h⟩; exact Defect.noConfusion h
    · rcases mem_rtRwErrors h with ⟨s,h⟩; exact Defect.noConfusion h
    · exact h
  · intro h
    tauto

/-- Counterexample to claim C4 as stated: a record with a valid
16-digit identity number whose raw day 25 encodes male, declared sex
female, but no declared birth date, validates to a clean outcome with
no sex-mismatch defect, because the cross-validation gate requires
the declared birth date to be present.  The cross-check is therefore
not independent of the presence of a declared birth date. -/
theorem sex_cross_check_needs_declared_date_cex :
    validate_ktp_data ⟨2026, 10, 12⟩
      ⟨"3201012501900001", "BUDI", none, some .perempuan,
        none, none, none, none⟩ = Except.ok (true, []) := rfl

/-- Claim C4, amended: for a record whose identity number is exactly
16 ASCII digits, whose declared sex is present, and whose declared
birth date is also present (non-empty) — the gate the source actually
applies — whenever the call returns an outcome (a declared-date
component at or above 2^31 instead raises an uncaught overflow and
produces none), the sex-mismatch defect is in that outcome iff the
embedded sex (female iff the raw day digits 7-8 exceed 40) differs
from the declared sex, irrespective of any defects in the embedded
date itself or of the declared date being parseable. -/
theorem sex_mismatch_iff_embedded (now : PyDateTime) (d : KTPData)
    (g : JenisKelamin) (day0 : Int) (v : Bool) (errs : List Defect)
    (h16 : isDigit16 d.nik = true)
    (ht : optTruthy d.tanggal_lahir = true)
    (hg : d.jenis_kelamin = some g)
    (hparse : pyInt? (pySliceStr d.nik 6 8) = some day0)
    (hok : validate_ktp_data now d = Except.ok (v, errs)) :
    Defect.sexMismatch ∈ errs ↔
      ¬ (40 < day0 ↔ g = JenisKelamin.perempuan) := by
  have hgate : crossErrors now d = cross_validate_nik_data now d := by
    unfold crossErrors
    rw [isDigit16_ne_empty h16, ht]
    simp
  have hcv : cross_validate_nik_data now d =
      cross_sex_errors day0 d.jenis_kelamin ++
        cross_date_errors now (if 40 < day0 then day0 - 40 else day0)
          ((digitsVal ((d.nik.toList.drop 8).take (10 - 8)) : Nat) : Int)
          ((digitsVal ((d.nik.toList.drop 10).take (12 - 10)) : Nat) : Int)
          d.tanggal_lahir := by
    simp only [cross_validate_nik_data]
    rw [slice_slice_0_2, hparse,
      slice_slice_2_4,
      pyInt?_slice h16 (by norm_num : (8:Nat) < 10) (by norm_num : (8:Nat) < 16),
      slice_slice_4_6,
      pyInt?_slice h16 (by norm_num : (10:Nat) < 12) (by norm_num : (10:Nat) < 16)]
  rw [sexMismatch_mem_iff hok, hgate, hcv, hg]
  simp only [List.mem_append]
  have hL : (("LAKI-LAKI" : String) == "PEREMPUAN") = false := by decide
  have hP : (("PEREMPUAN" : String) == "PEREMPUAN") = true := by decide
  constructor
  · rintro (h | h)
    · have hc := (mem_guardD.mp (by simpa [cross_sex_errors] using h)).1
      cases g <;> by_cases h40 : 40 < day0 <;>
        simp_all [JenisKelamin.value]
    · exact absurd (mem_cross_date_errors h) (by simp)
  · intro hno
    left
    have hc : (decide (40 < day0) != (JenisKelamin.value g == "PEREMPUAN")) = true := by
      cases g <;> by_cases h40 : 40 < day0 <;>
        simp_all [JenisKelamin.value]
    simp [cross_sex_errors, guardD, hc]

theorem sex_mismatch_iff_embedded_witness :
    isDigit16 "3201012501900001" = true ∧
    optTruthy (some "25-01-1990") = true ∧
    pyInt? (pySliceStr "3201012501900001" 6 8) = some 25 ∧
    validate_ktp_data ⟨2026, 10, 12⟩
      ⟨"3201012501900001", "BUDI", some "25-01-1990", some .perempuan,
        none, none, none, none⟩ = Except.ok (false, [Defect.sexMismatch]) ∧
    (Defect.sexMismatch ∈ ([Defect.sexMismatch] : List Defect) ↔
      ¬ (40 < (25:Int) ↔ JenisKelamin.perempuan = JenisKelamin.perempuan)) :=
  ⟨by decide, by decide, by decide, rfl,
    sex_mismatch_iff_embedded ⟨2026, 10, 12⟩
      ⟨"3201012501900001", "BUDI", some "25-01-1990", some .perempuan,
        none, none, none, none⟩
      JenisKelamin.perempuan 25 false [Defect.sexMismatch]
      (by decide) (by decide) rfl (by decide) rfl⟩

/-- The province check accepts exactly the normalized strings related
to a listed name by equality or substring containment in either
direction. -/
lemma validate_province_eq (p : String) :
    validate_province p =
      if provinceAcceptedSpec p then [] else [Defect.provinceUnknown p] := by
  simp only [validate_province]
  by_cases hc : valid_provinces.contains (pyStrip (pyUpper p)) = true
  · rw [if_pos hc]
    have hacc : provinceAcceptedSpec p = true := by
      unfold provinceAcceptedSpec
      refine List.any_eq_true.mpr ⟨pyStrip (pyUpper p), List.elem_iff.mp hc, ?_⟩
      simp
    rw [hacc]
    simp
  · rw [if_neg hc]
    by_cases hf : (List.filter
        (fun q => strIn (pyStrip (pyUpper p)) q || strIn q (pyStrip (pyUpper p)))
        valid_provinces).isEmpty = true
    · rw [if_pos hf]
      have hacc : provinceAcceptedSpec p = false := by
        rw [Bool.eq_false_iff]
        intro hacc
        rcases List.any_eq_true.mp hacc with ⟨q, hq, hpred⟩
        rcases Bool.or_eq_true_iff.mp hpred with h1 | h2
        · rcases Bool.or_eq_true_iff.mp h1 with h0 | hin
          · exact hc (List.elem_iff.mpr (beq_iff_eq.mp h0 ▸ hq))
          · have : (List.filter
                (fun q => strIn (pyStrip (pyUpper p)) q ||
                  strIn q (pyStrip (pyUpper p))) valid_provinces) ≠ [] := by
              intro hnil
              have := (List.filter_eq_nil_iff.mp hnil) q hq
              simp only [strIn, Bool.or_eq_true_iff] at this
              exact this (Or.inl hin)
            exact this (List.isEmpty_iff.mp hf)
        · have : (List.filter
              (fun q => strIn (pyStrip (pyUpper p)) q ||
                strIn q (pyStrip (pyUpper p))) valid_provinces) ≠ [] := by
            intro hnil
            have := (List.filter_eq_nil_iff.mp hnil) q hq
            simp only [strIn, Bool.or_eq_true_iff] at this
            exact this (Or.inr h2)
          exact this (List.isEmpty_iff.mp hf)
      rw [hacc]
      simp
    · rw [if_neg hf]
      have hne : (List.filter
          (fun q => strIn (pyStrip (pyUpper p)) q || strIn q (pyStrip (pyUpper p)))
          valid_provinces) ≠ [] := by
        rw [← List.isEmpty_eq_false]
        exact Bool.eq_false_iff.mpr hf
      obtain ⟨q, hq, hpred⟩ : ∃ q ∈ valid_provinces,
          (strIn (pyStrip (pyUpper p)) q || strIn q (pyStrip (pyUpper p))) = true := by
        by_contra hall
        push_neg at hall
        exact hne (List.filter_eq_nil_iff.mpr
          (fun a ha => by simp [hall a ha]))
      have hacc : provinceAcceptedSpec p = true := by
        unfold provinceAcceptedSpec
        refine List.any_eq_true.mpr ⟨q, hq, ?_⟩
        simp only [strIn] at hpred
        rcases Bool.or_eq_true_iff.mp hpred with h | h
        · exact Bool.or_eq_true_iff.mpr (Or.inl (Bool.or_eq_true_iff.mpr (Or.inr h)))
        · exact Bool.or_eq_true_iff.mpr (Or.inr h)
      rw [hacc]
      simp

/-- Counterexample to claim C6 as stated: the fixed province list of
the source has 38 entries, not 37. -/
theorem province_list_not_37_cex : valid_provinces.length ≠ 37 := by decide

/-- Claim C6, amended: the province check normalizes by uppercasing
and trimming and accepts exactly the strings that equal, are a
substring of, or contain one of the 38 listed province names; in
every normally returned outcome (a declared-birth-date component at
or above 2^31 instead raises an uncaught overflow and produces none)
any other present province string yields exactly one province defect. -/
theorem province_check_characterization (now : PyDateTime) (d : KTPData)
    (p : String) (v : Bool) (errs : List Defect)
    (hp : d.provinsi = some p) (hne : (p == "") = false)
    (hok : validate_ktp_data now d = Except.ok (v, errs)) :
    errs.countP Defect.isProvinceDefect =
      if provinceAcceptedSpec p then 0 else 1 := by
  obtain ⟨dateErrs, hde, rfl, -⟩ := (validate_ktp_data_ok_iff now d v errs).mp hok
  simp only [List.countP_append]
  have z1 : (validate_nik now d.nik).countP Defect.isProvinceDefect = 0 :=
    List.countP_eq_zero.mpr (fun e he => by
      rcases mem_validate_nik he with rfl|rfl|⟨s,rfl⟩|⟨s,rfl⟩|rfl <;>
        simp [Defect.isProvinceDefect])
  have z2 : (nameErrors d).countP Defect.isProvinceDefect = 0 :=
    List.countP_eq_zero.mpr (fun e he => by
      rw [mem_nameErrors he]; simp [Defect.isProvinceDefect])
  have z3 : dateErrs.countP Defect.isProvinceDefect = 0 :=
    List.countP_eq_zero.mpr (fun e he => by
      rcases mem_declaredDateErrors hde he with ⟨x,rfl⟩|⟨x,rfl⟩|⟨x,rfl⟩|rfl|⟨t,rfl⟩|⟨t,rfl⟩ <;>
        simp [Defect.isProvinceDefect])
  have z4 : (genderErrors d).countP Defect.isProvinceDefect = 0 :=
    List.countP_eq_zero.mpr (fun e he => by
      rcases mem_genderErrors he with ⟨s,rfl⟩; simp [Defect.isProvinceDefect])
  have z6 : (religionErrors d).countP Defect.isProvinceDefect = 0 :=
    List.countP_eq_zero.mpr (fun e he => by
      rcases mem_religionErrors he with ⟨s,rfl⟩; simp [Defect.isProvinceDefect])
  have z7 : (maritalErrors d).countP Defect.isProvinceDefect = 0 :=
    List.countP_eq_zero.mpr (fun e he => by
      rcases mem_maritalErrors he with ⟨s,rfl⟩; simp [Defect.isProvinceDefect])
  have z8 : (rtRwErrors d).countP Defect.isProvinceDefect = 0 :=
    List.countP_eq_zero.mpr (fun e he => by
      rcases mem_rtRwErrors he with ⟨s,rfl⟩; simp [Defect.isProvinceDefect])
  have z9 : (crossErrors now d).countP Defect.isProvinceDefect = 0 :=
    List.countP_eq_zero.mpr (fun e he => by
      rcases mem_crossErrors he with rfl|rfl <;> simp [Defect.isProvinceDefect])
  have hprov : (provinceErrors d).countP Defect.isProvinceDefect =
      if provinceAcceptedSpec p then 0 else 1 := by
    unfold provinceErrors
    simp only [hp, hne]
    rw [validate_province_eq]
    cases ha : provinceAcceptedSpec p
    · simp [ha, Defect.isProvinceDefect]
    · simp [ha]
  rw [z1, z2, z3, z4, hprov, z6, z7, z8, z9]
  simp

theorem province_check_characterization_witness :
    (("XYZ" : String) == "") = false ∧
    validate_ktp_data ⟨2026, 10, 12⟩
      ⟨"", "BUDI", none, none, some "XYZ", none, none, none⟩ =
        Except.ok (false, [Defect.nikEmpty, Defect.provinceUnknown "XYZ"]) ∧
    (([Defect.nikEmpty, Defect.provinceUnknown "XYZ"] : List Defect).countP
        Defect.isProvinceDefect =
      if provinceAcceptedSpec "XYZ" then 0 else 1) :=
  ⟨by decide, rfl,
    province_check_characterization ⟨2026, 10, 12⟩
      ⟨"", "BUDI", none, none, some "XYZ", none, none, none⟩ "XYZ"
      false [Defect.nikEmpty, Defect.provinceUnknown "XYZ"]
      rfl (by decide) rfl⟩

end KTPDetection
